import Mathlib

/-!
Shallow embedding of the Stripe subscription-synchronization subsystem of
the extinguisher-tracker repository: the Firebase Cloud Functions in
functions/index.js (createCheckoutSession, createPortalSession,
stripeWebhook and its five event handlers, getTierFromPriceId,
getUserIdFromCustomerId, updateUserLimits) together with the static tier
catalog in src/config/subscriptionTiers.js.

Firestore user documents are modelled as an association list keyed by
userId; each .update(...) call in the source becomes one element of a
write list applied in order.  Outbound Stripe calls (customer creation,
session creation, subscription retrieval) and the customer-metadata
fallback of getUserIdFromCustomerId are modelled as explicit function
parameters, since their behavior lives outside this repository.  JS
falsiness of string-valued inputs (undefined or empty string) is modelled
by the helper jsStr.
-/

namespace ExtTracker

/-- JS numbers as used in the tier limit tables: a natural number or
the literal Infinity (used by the enterprise maxExtinguishers limit). -/
inductive JsNum where
  | num (n : Nat)
  | inf
deriving DecidableEq, Repr

/-- Feature-limit bundle, the shape of the limits objects in
updateUserLimits (functions/index.js) and TIER_CONFIG
(src/config/subscriptionTiers.js). -/
structure Limits where
  maxExtinguishers : JsNum
  photosEnabled : Bool
  maxPhotosPerUnit : Nat
  gpsEnabled : Bool
  advancedExportEnabled : Bool
  inspectionHistoryEnabled : Bool
  prioritySupport : Bool
deriving DecidableEq, Repr

/-- The basic limits object of updateUserLimits. -/
def basicLimits : Limits :=
  { maxExtinguishers := .num 100, photosEnabled := false, maxPhotosPerUnit := 0,
    gpsEnabled := false, advancedExportEnabled := false,
    inspectionHistoryEnabled := false, prioritySupport := false }

/-- The pro limits object of updateUserLimits. -/
def proLimits : Limits :=
  { maxExtinguishers := .num 500, photosEnabled := true, maxPhotosPerUnit := 5,
    gpsEnabled := true, advancedExportEnabled := true,
    inspectionHistoryEnabled := true, prioritySupport := true }

/-- The enterprise limits object of updateUserLimits. -/
def enterpriseLimits : Limits :=
  { maxExtinguishers := .inf, photosEnabled := true, maxPhotosPerUnit := 10,
    gpsEnabled := true, advancedExportEnabled := true,
    inspectionHistoryEnabled := true, prioritySupport := true }

/-- The tierConfig object lookup inside updateUserLimits
(functions/index.js): tier name to limits, none for unknown keys. -/
def tierConfigLimits (tier : String) : Option Limits :=
  if tier = "basic" then some basicLimits
  else if tier = "pro" then some proLimits
  else if tier = "enterprise" then some enterpriseLimits
  else none

/-- The limit value updateUserLimits writes:
tierConfig[tier] || tierConfig.basic. -/
def projectLimits (tier : String) : Limits :=
  (tierConfigLimits tier).getD basicLimits

/-- Tier names of SUBSCRIPTION_TIERS in src/config/subscriptionTiers.js. -/
def SUBSCRIPTION_TIERS : List String := ["basic", "pro", "enterprise"]

/-- Stripe price identifiers configured in TIER_CONFIG
(src/config/subscriptionTiers.js): the default stripePriceId values of the
basic and pro monthly prices (enterprise has custom pricing and no price
id). -/
def catalogPriceIds : List String := ["price_basic_monthly", "price_pro_monthly"]

/-- Does the list s start with the list pat. -/
def startsWithChars : List Char → List Char → Bool
  | _, [] => true
  | [], _ :: _ => false
  | a :: as, b :: bs => a = b && startsWithChars as bs

/-- Does the list s contain pat as a contiguous run (JS
String.prototype.includes on the underlying characters). -/
def containsChars (pat : List Char) : List Char → Bool
  | [] => pat.isEmpty
  | a :: rest => startsWithChars (a :: rest) pat || containsChars pat rest

/-- JS s.includes(pat). -/
def jsIncludes (s pat : String) : Bool := containsChars pat.data s.data

/-- The priceIdToTier object of getTierFromPriceId (functions/index.js). -/
def priceIdToTier (priceId : String) : Option String :=
  if priceId = "price_basic_monthly" then some "basic"
  else if priceId = "price_pro_monthly" then some "pro"
  else none

/-- getTierFromPriceId of functions/index.js, paired with whether the
console.warn default branch was reached: exact table lookup first, then
the substring checks for basic and pro, else warn and default to basic. -/
def getTierFromPriceIdW (priceId : String) : String × Bool :=
  match priceIdToTier priceId with
  | some t => (t, false)
  | none =>
    if jsIncludes priceId "basic" then ("basic", false)
    else if jsIncludes priceId "pro" then ("pro", false)
    else ("basic", true)

/-- getTierFromPriceId of functions/index.js (the returned tier). -/
def getTierFromPriceId (priceId : String) : String :=
  (getTierFromPriceIdW priceId).1

/-- The fields of a Firestore users/uid document touched by the
subscription subsystem.  updatedAt is the serverTimestamp write, modelled
as a Nat supplied by the caller. -/
structure UserDoc where
  stripeCustomerId : Option String := none
  stripeSubscriptionId : Option String := none
  subscriptionStatus : String := ""
  subscriptionTier : String := ""
  currentPeriodStart : Nat := 0
  currentPeriodEnd : Nat := 0
  limits : Limits := basicLimits
  updatedAt : Nat := 0
deriving DecidableEq, Repr

/-- The fields of a Stripe subscription object the handlers read. -/
structure SubObj where
  id : String := ""
  customer : String := ""
  status : String := ""
  priceId : String := ""
  currentPeriodStart : Nat := 0
  currentPeriodEnd : Nat := 0
deriving DecidableEq, Repr

/-- The Firestore users collection: association list keyed by userId. -/
def Store := List (String × UserDoc)

instance : DecidableEq Store := by
  unfold Store; infer_instance

/-- Read the document at key k (none when it does not exist). -/
def Store.get (s : Store) (k : String) : Option UserDoc :=
  (s.find? (fun p => p.1 = k)).map (fun p => p.2)

/-- Firestore .update(...) on document k: applies the field merge f when
the document exists, errors (throws NOT_FOUND) when it does not. -/
def Store.update (s : Store) (k : String) (f : UserDoc → UserDoc) :
    Except String Store :=
  if (s.find? (fun p => p.1 = k)).isSome then
    Except.ok (s.map (fun p => if p.1 = k then (p.1, f p.2) else p))
  else
    Except.error "NOT_FOUND"

/-- JS falsiness of an optional string input: undefined and the empty
string are falsy. -/
def jsStr (o : Option String) : Option String :=
  match o with
  | some str => if str = "" then none else some str
  | none => none

/-! ## Webhook handler write functions

One definition per .update(...) call in functions/index.js, as a pure
field merge on the document. -/

/-- The update of handleCheckoutCompleted: status active, tier derived
from the price id, subscription id and period bounds (Stripe seconds are
stored via Timestamp.fromMillis of seconds * 1000). -/
def checkoutWrite (sub : SubObj) (now : Nat) (d : UserDoc) : UserDoc :=
  { d with subscriptionStatus := "active",
           subscriptionTier := getTierFromPriceId sub.priceId,
           stripeSubscriptionId := some sub.id,
           currentPeriodStart := sub.currentPeriodStart * 1000,
           currentPeriodEnd := sub.currentPeriodEnd * 1000,
           updatedAt := now }

/-- The update of updateUserLimits: writes limits only, projected from
the tier argument. -/
def limitsWrite (tier : String) (now : Nat) (d : UserDoc) : UserDoc :=
  { d with limits := projectLimits tier, updatedAt := now }

/-- The update of handleSubscriptionUpdated: tier derived from the price
id, status copied from the provider subscription, period bounds
refreshed. -/
def subUpdatedWrite (sub : SubObj) (now : Nat) (d : UserDoc) : UserDoc :=
  { d with subscriptionTier := getTierFromPriceId sub.priceId,
           subscriptionStatus := sub.status,
           currentPeriodStart := sub.currentPeriodStart * 1000,
           currentPeriodEnd := sub.currentPeriodEnd * 1000,
           updatedAt := now }

/-- The update of handleSubscriptionDeleted: status canceled only. -/
def subDeletedWrite (now : Nat) (d : UserDoc) : UserDoc :=
  { d with subscriptionStatus := "canceled", updatedAt := now }

/-- The update of handlePaymentSucceeded: period bounds only. -/
def periodWrite (sub : SubObj) (now : Nat) (d : UserDoc) : UserDoc :=
  { d with currentPeriodStart := sub.currentPeriodStart * 1000,
           currentPeriodEnd := sub.currentPeriodEnd * 1000,
           updatedAt := now }

/-- The update of handlePaymentFailed: status past_due only. -/
def paymentFailedWrite (now : Nat) (d : UserDoc) : UserDoc :=
  { d with subscriptionStatus := "past_due", updatedAt := now }

/-- The sequence of Firestore updates handleCheckoutCompleted performs for
a resolved user: the main field write, then the separate updateUserLimits
write. -/
def checkoutCompletedWrites (sub : SubObj) (now : Nat) :
    List (UserDoc → UserDoc) :=
  [checkoutWrite sub now, limitsWrite (getTierFromPriceId sub.priceId) now]

/-- The sequence of Firestore updates handleSubscriptionUpdated performs
for a resolved user. -/
def subscriptionUpdatedWrites (sub : SubObj) (now : Nat) :
    List (UserDoc → UserDoc) :=
  [subUpdatedWrite sub now, limitsWrite (getTierFromPriceId sub.priceId) now]

/-- Net per-document effect of handleCheckoutCompleted's two sequential
updates. -/
def applyCheckout (sub : SubObj) (now : Nat) (d : UserDoc) : UserDoc :=
  limitsWrite (getTierFromPriceId sub.priceId) now (checkoutWrite sub now d)

/-- Net per-document effect of handleSubscriptionUpdated's two sequential
updates. -/
def applySubUpdated (sub : SubObj) (now : Nat) (d : UserDoc) : UserDoc :=
  limitsWrite (getTierFromPriceId sub.priceId) now (subUpdatedWrite sub now d)

/-! ## Webhook handlers and dispatch -/

/-- External collaborators of the webhook handlers: the Stripe-customer
metadata fallback of getUserIdFromCustomerId (customers.retrieve plus its
firebaseUID metadata, with errors already caught to none, as in the
source), and stripe.subscriptions.retrieve, which can throw. -/
structure Ext where
  metaLookup : String → Option String
  retrieveSub : String → Except String SubObj

/-- getUserIdFromCustomerId of functions/index.js: Firestore query for a
user with this stripeCustomerId, falling back to the customer-metadata
lookup; every failure path returns none (null). -/
def getUserIdFromCustomerId (ext : Ext) (s : Store) (customerId : String) :
    Option String :=
  match s.find? (fun p => p.2.stripeCustomerId = some customerId) with
  | some p => some p.1
  | none => ext.metaLookup customerId

/-- Apply a list of Firestore updates to document uid in order; an update
on a missing document aborts with its error. -/
def runWrites (uid : String) (ws : List (UserDoc → UserDoc)) (s : Store) :
    Except String Store :=
  match ws with
  | [] => Except.ok s
  | w :: rest => do
    let s' ← s.update uid w
    runWrites uid rest s'

/-- handleCheckoutCompleted of functions/index.js: drop when the session
metadata carries no userId; otherwise retrieve the subscription, derive
the tier and apply the two updates. -/
def handleCheckoutCompleted (ext : Ext) (metadataUserId : Option String)
    (sessionSubscription : String) (now : Nat) (s : Store) :
    Except String Store :=
  match jsStr metadataUserId with
  | none => Except.ok s
  | some uid => do
    let sub ← ext.retrieveSub sessionSubscription
    runWrites uid (checkoutCompletedWrites sub now) s

/-- handleSubscriptionUpdated of functions/index.js: drop when the
customer does not resolve; otherwise apply the two updates. -/
def handleSubscriptionUpdated (ext : Ext) (sub : SubObj) (now : Nat)
    (s : Store) : Except String Store :=
  match getUserIdFromCustomerId ext s sub.customer with
  | none => Except.ok s
  | some uid => runWrites uid (subscriptionUpdatedWrites sub now) s

/-- handleSubscriptionDeleted of functions/index.js. -/
def handleSubscriptionDeleted (ext : Ext) (customer : String) (now : Nat)
    (s : Store) : Except String Store :=
  match getUserIdFromCustomerId ext s customer with
  | none => Except.ok s
  | some uid => runWrites uid [subDeletedWrite now] s

/-- handlePaymentSucceeded of functions/index.js: refreshes period bounds
only when the invoice carries a subscription reference. -/
def handlePaymentSucceeded (ext : Ext) (customer : String)
    (invoiceSubscription : Option String) (now : Nat) (s : Store) :
    Except String Store :=
  match getUserIdFromCustomerId ext s customer with
  | none => Except.ok s
  | some uid =>
    match jsStr invoiceSubscription with
    | none => Except.ok s
    | some subRef => do
      let sub ← ext.retrieveSub subRef
      runWrites uid [periodWrite sub now] s

/-- handlePaymentFailed of functions/index.js. -/
def handlePaymentFailed (ext : Ext) (customer : String) (now : Nat)
    (s : Store) : Except String Store :=
  match getUserIdFromCustomerId ext s customer with
  | none => Except.ok s
  | some uid => runWrites uid [paymentFailedWrite now] s

/-- The event envelope as the dispatch switch of stripeWebhook consumes
it: one constructor per handled event.type, plus unknown for the default
case. -/
inductive StripeEvent where
  | checkoutCompleted (metadataUserId : Option String)
      (sessionSubscription : String)
  | subscriptionUpdated (sub : SubObj)
  | subscriptionDeleted (customer : String)
  | paymentSucceeded (customer : String) (invoiceSubscription : Option String)
  | paymentFailed (customer : String)
  | unknown (eventType : String)

/-- The switch statement of stripeWebhook: dispatch the parsed event to
its handler; the default case only logs. -/
def dispatchEvent (ext : Ext) (e : StripeEvent) (now : Nat) (s : Store) :
    Except String Store :=
  match e with
  | .checkoutCompleted md subRef => handleCheckoutCompleted ext md subRef now s
  | .subscriptionUpdated sub => handleSubscriptionUpdated ext sub now s
  | .subscriptionDeleted cust => handleSubscriptionDeleted ext cust now s
  | .paymentSucceeded cust subRef => handlePaymentSucceeded ext cust subRef now s
  | .paymentFailed cust => handlePaymentFailed ext cust now s
  | .unknown _ => Except.ok s

/-- stripeWebhook of functions/index.js: stripe.webhooks.constructEvent
first verifies the header signature against the signature recomputed from
the raw body and the webhook secret, and only on success parses the body;
a mismatch returns status 400 before any parsing or dispatch.  A handler
error returns 500; otherwise the response is 200 (res.json).  The
signature scheme hmac and the body parser are the Stripe library's,
outside this repository, so both are parameters.  Result: HTTP status
paired with the resulting store. -/
def stripeWebhook (hmac : String → String → String)
    (parse : String → StripeEvent) (ext : Ext)
    (rawBody sig secret : String) (now : Nat) (s : Store) : Nat × Store :=
  if sig = hmac secret rawBody then
    match dispatchEvent ext (parse rawBody) now s with
    | Except.ok s' => (200, s')
    | Except.error _ => (500, s)
  else
    (400, s)

/-! ## Session broker: createCheckoutSession and createPortalSession -/

/-- Error codes of functions.https.HttpsError as used in
functions/index.js. -/
inductive ErrCode where
  | unauthenticated
  | invalidArgument
  | failedPrecondition
  | internal
deriving DecidableEq, Repr

/-- Outbound Stripe calls of the session broker, each able to throw:
customers.create (email, firebaseUID metadata), checkout.sessions.create
(customer, price, successUrl, cancelUrl, userId metadata) returning
session id and url, and billingPortal.sessions.create (customer,
returnUrl) returning the portal url. -/
structure Provider where
  customerCreate : String → String → Except String String
  checkoutCreate : String → String → String → String → String →
    Except String (String × String)
  portalCreate : String → String → Except String String

/-- The try block body of createCheckoutSession: read the user's stored
stripeCustomerId, create and persist a Stripe customer when absent, then
create the checkout session.  Any thrown error surfaces as
Except.error. -/
def checkoutTryBody (uid email priceId successUrl cancelUrl : String)
    (prov : Provider) (s : Store) :
    Except String ((String × String) × Store) := do
  let stored := jsStr ((s.get uid).bind (fun d => d.stripeCustomerId))
  let (customerId, s') ←
    match stored with
    | some cid => Except.ok (cid, s)
    | none => do
      let cid ← prov.customerCreate email uid
      let s' ← s.update uid (fun d => { d with stripeCustomerId := some cid })
      Except.ok (cid, s')
  let sess ← prov.checkoutCreate customerId priceId successUrl cancelUrl uid
  Except.ok (sess, s')

/-- createCheckoutSession of functions/index.js.  auth is the verified
caller identity (uid, token email), absent for unauthenticated calls; the
three data fields are checked for JS falsiness only; every error thrown
inside the try block is caught and rethrown as internal. -/
def createCheckoutSession (auth : Option (String × String))
    (priceId successUrl cancelUrl : Option String) (prov : Provider)
    (s : Store) : Except (ErrCode × String) ((String × String) × Store) :=
  match auth with
  | none => Except.error (.unauthenticated,
      "User must be logged in to create a checkout session")
  | some (uid, email) =>
    match jsStr priceId, jsStr successUrl, jsStr cancelUrl with
    | some p, some su, some cu =>
      match checkoutTryBody uid email p su cu prov s with
      | Except.ok r => Except.ok r
      | Except.error _ => Except.error (.internal,
          "Failed to create checkout session")
    | _, _, _ => Except.error (.invalidArgument,
        "Missing required parameters: priceId, successUrl, cancelUrl")

/-- The try block body of createPortalSession: read the user's stored
stripeCustomerId, throw failed-precondition when absent, else create the
portal session.  The HttpsError thrown here is a thrown JS error like any
other, so it is returned in the same error channel the catch block
consumes. -/
def portalTryBody (uid returnUrl : String) (prov : Provider) (s : Store) :
    Except (ErrCode × String) String :=
  match jsStr ((s.get uid).bind (fun d => d.stripeCustomerId)) with
  | none => Except.error (.failedPrecondition,
      "No Stripe customer found. Please subscribe first.")
  | some cid =>
    match prov.portalCreate cid returnUrl with
    | Except.ok url => Except.ok url
    | Except.error m => Except.error (.internal, m)

/-- createPortalSession of functions/index.js.  The catch block wraps
every error thrown inside the try block - including the
failed-precondition HttpsError thrown there - as internal "Failed to
create portal session". -/
def createPortalSession (auth : Option String) (returnUrl : Option String)
    (prov : Provider) (s : Store) : Except (ErrCode × String) String :=
  match auth with
  | none => Except.error (.unauthenticated,
      "User must be logged in to access customer portal")
  | some uid =>
    match jsStr returnUrl with
    | none => Except.error (.invalidArgument,
        "Missing required parameter: returnUrl")
    | some ru =>
      match portalTryBody uid ru prov s with
      | Except.ok url => Except.ok url
      | Except.error _ => Except.error (.internal,
          "Failed to create portal session")

/-! ## Store lemmas -/

lemma get_map_update (s : Store) (k : String) (f : UserDoc → UserDoc) :
    Store.get (s.map (fun p => if p.1 = k then (p.1, f p.2) else p)) k
      = (Store.get s k).map f := by
  induction s with
  | nil => rfl
  | cons p rest ih =>
    by_cases h : p.1 = k
    · simp [Store.get, List.find?, h]
    · simp only [List.map_cons, if_neg h]
      unfold Store.get at ih ⊢
      rw [List.find?_cons_of_neg _ (by simpa using h),
        List.find?_cons_of_neg _ (by simpa using h)]
      exact ih

lemma update_ok (s : Store) (k : String) (f : UserDoc → UserDoc)
    (d : UserDoc) (hd : s.get k = some d) :
    ∃ s', s.update k f = Except.ok s' ∧ s'.get k = some (f d) := by
  have hsome : (s.find? (fun p => p.1 = k)).isSome := by
    unfold Store.get at hd
    cases h : s.find? (fun p => p.1 = k) with
    | none => rw [h] at hd; simp at hd
    | some p => simp [h]
  unfold Store.update
  rw [if_pos hsome]
  refine ⟨s.map (fun p => if p.1 = k then (p.1, f p.2) else p), rfl, ?_⟩
  rw [get_map_update, hd]
  rfl

lemma runWrites_ok (ws : List (UserDoc → UserDoc)) (uid : String)
    (s : Store) (d : UserDoc) (hd : s.get uid = some d) :
    ∃ s', runWrites uid ws s = Except.ok s'
      ∧ s'.get uid = some (ws.foldl (fun a w => w a) d) := by
  induction ws generalizing s d with
  | nil => exact ⟨s, rfl, by simpa using hd⟩
  | cons w rest ih =>
    obtain ⟨s1, h1, h2⟩ := update_ok s uid w d hd
    obtain ⟨s', h3, h4⟩ := ih s1 (w d) h2
    refine ⟨s', ?_, by simpa using h4⟩
    unfold runWrites
    rw [h1]
    exact h3

/-! ## Concrete fixtures for counterexamples and witnesses -/

/-- A provider whose outbound calls all succeed with fixed results. -/
def prov1 : Provider :=
  { customerCreate := fun _ _ => Except.ok "cus_1",
    checkoutCreate := fun _ _ _ _ _ => Except.ok ("cs_1", "https://checkout"),
    portalCreate := fun _ _ => Except.ok "https://portal" }

/-- External webhook collaborators with an empty metadata fallback and a
failing subscription retrieval. -/
def ext1 : Ext :=
  { metaLookup := fun _ => none,
    retrieveSub := fun _ => Except.error "resource_missing" }

/-- A user document with no linked Stripe customer. -/
def docNoCust : UserDoc := {}

/-- Store holding only a user without a Stripe customer id. -/
def store1 : Store := [("u1", docNoCust)]

/-- A basic-tier document consistent with the Limit Projector. -/
def docBasic : UserDoc :=
  { stripeCustomerId := some "cus_1", subscriptionStatus := "active",
    subscriptionTier := "basic", limits := basicLimits }

/-- An already-canceled pro-tier document linked to cus_1. -/
def docCanceled : UserDoc :=
  { stripeCustomerId := some "cus_1", subscriptionStatus := "canceled",
    subscriptionTier := "pro", limits := proLimits }

/-- An active pro-tier document linked to cus_1. -/
def docActive : UserDoc :=
  { stripeCustomerId := some "cus_1", subscriptionStatus := "active",
    subscriptionTier := "pro", limits := proLimits }

/-- A subscription object on the configured pro monthly price. -/
def subPro : SubObj :=
  { id := "sub_1", customer := "cus_1", status := "active",
    priceId := "price_pro_monthly", currentPeriodStart := 100,
    currentPeriodEnd := 200 }

/-! ## Claim theorems -/

/-- Claim C1 (code bug): for a user whose billing record has no
stripeCustomerId, the try block of createPortalSession does throw the
failed-precondition HttpsError, but the catch block of the same function
catches it and rethrows internal "Failed to create portal session" - so
the caller receives internal, not FailedPrecondition, contrary to the
spec. -/
theorem c1_portal_failed_precondition_swallowed :
    portalTryBody "u1" "https://app/return" prov1 store1
        = Except.error (ErrCode.failedPrecondition,
            "No Stripe customer found. Please subscribe first.")
      ∧ createPortalSession (some "u1") (some "https://app/return") prov1 store1
        = Except.error (ErrCode.internal, "Failed to create portal session") :=
  ⟨rfl, rfl⟩

/-- Claim C2: whenever the signature header differs from the signature
recomputed from the raw body and the shared secret, stripeWebhook answers
400 and leaves the store untouched, for every parser (hence before and
independently of any parsing of the body) and every event kind. -/
theorem c2_invalid_signature_rejected
    (hmac : String → String → String) (parse : String → StripeEvent)
    (ext : Ext) (rawBody sig secret : String) (now : Nat) (s : Store)
    (h : sig ≠ hmac secret rawBody) :
    stripeWebhook hmac parse ext rawBody sig secret now s = (400, s) := by
  unfold stripeWebhook
  rw [if_neg h]

/-- Witness for C2 at a concrete mismatched signature. -/
theorem c2_invalid_signature_rejected_witness :
    stripeWebhook (fun secret b => secret ++ b)
      (fun _ => StripeEvent.unknown "t") ext1 "body" "bad" "sec" 0 []
      = (400, []) :=
  c2_invalid_signature_rejected _ _ ext1 "body" "bad" "sec" 0 [] (by decide)

/-- Claim C3 counterexample: "price_nonsense" is not in the TierConfig
price-id catalog, yet an authenticated createCheckoutSession call with it
succeeds (the code never consults the catalog and no InvalidArgument is
raised for an unknown-but-present identifier). -/
theorem c3_unknown_price_not_rejected :
    ("price_nonsense" ∈ catalogPriceIds → False)
    ∧ createCheckoutSession (some ("u1", "u1@example.com"))
        (some "price_nonsense") (some "https://ok") (some "https://cancel")
        prov1 store1
      = Except.ok (("cs_1", "https://checkout"),
          [("u1", { stripeCustomerId := some "cus_1" })]) := by
  exact ⟨by decide, rfl⟩

/-- Claim C3 amended: createCheckoutSession fails with InvalidArgument
exactly when the caller is authenticated and at least one of priceId,
successUrl, cancelUrl is missing or empty; the identifier is never
validated against the TierConfig catalog. -/
theorem c3_invalid_argument_iff_missing_field
    (auth : Option (String × String))
    (priceId successUrl cancelUrl : Option String) (prov : Provider)
    (s : Store) :
    (∃ m, createCheckoutSession auth priceId successUrl cancelUrl prov s
        = Except.error (ErrCode.invalidArgument, m))
    ↔ auth.isSome ∧ ((jsStr priceId).isNone ∨ (jsStr successUrl).isNone
        ∨ (jsStr cancelUrl).isNone) := by
  cases auth with
  | none => simp [createCheckoutSession]
  | some a =>
    obtain ⟨uid, email⟩ := a
    rcases hp : jsStr priceId with _ | p
    · simp [createCheckoutSession, hp]
    · rcases hs : jsStr successUrl with _ | su
      · simp [createCheckoutSession, hp, hs]
      · rcases hc : jsStr cancelUrl with _ | cu
        · simp [createCheckoutSession, hp, hs, hc]
        · cases htb : checkoutTryBody uid email p su cu prov s with
          | ok r => simp [createCheckoutSession, hp, hs, hc, htb]
          | error e => simp [createCheckoutSession, hp, hs, hc, htb]

/-- Witness for the amended C3 at a concrete call with a missing price
id. -/
theorem c3_invalid_argument_witness :
    ∃ m, createCheckoutSession (some ("u1", "u1@example.com")) none
        (some "https://ok") (some "https://cancel") prov1 store1
      = Except.error (ErrCode.invalidArgument, m) :=
  (c3_invalid_argument_iff_missing_field _ _ _ _ prov1 store1).mpr (by decide)

/-- Claim C4 counterexample: handleCheckoutCompleted performs two
Firestore updates, not one, and the state after the first of them has the
new tier (pro) with the stale basic limits, violating the limits
invariant between the two writes. -/
theorem c4_checkout_not_single_update :
    (checkoutCompletedWrites subPro 7).length ≠ 1
    ∧ runWrites "u1" ((checkoutCompletedWrites subPro 7).take 1)
        [("u1", docBasic)]
      = Except.ok [("u1", checkoutWrite subPro 7 docBasic)]
    ∧ (checkoutWrite subPro 7 docBasic).subscriptionTier = "pro"
    ∧ (checkoutWrite subPro 7 docBasic).limits
        ≠ projectLimits (checkoutWrite subPro 7 docBasic).subscriptionTier := by
  exact ⟨by decide, rfl, rfl, by decide⟩

/-- Claim C4 amended: once a transition's write sequence has completed,
the stored limits equal the Limit Projector's output for the stored tier:
unconditionally after the checkout-completed and subscription-updated
pairs of writes, and preserved from before by the single-write
subscription-deleted, invoice-payment-succeeded and
invoice-payment-failed transitions; the write is not atomic, being two
sequential updates for the first two transitions. -/
theorem c4_limits_consistent_after_transition (sub : SubObj) (now : Nat)
    (d : UserDoc) (h : d.limits = projectLimits d.subscriptionTier) :
    (applyCheckout sub now d).limits
        = projectLimits (applyCheckout sub now d).subscriptionTier
    ∧ (applySubUpdated sub now d).limits
        = projectLimits (applySubUpdated sub now d).subscriptionTier
    ∧ (subDeletedWrite now d).limits
        = projectLimits (subDeletedWrite now d).subscriptionTier
    ∧ (periodWrite sub now d).limits
        = projectLimits (periodWrite sub now d).subscriptionTier
    ∧ (paymentFailedWrite now d).limits
        = projectLimits (paymentFailedWrite now d).subscriptionTier :=
  ⟨rfl, rfl, h, h, h⟩

/-- Witness for the amended C4 at a concrete consistent document. -/
theorem c4_limits_consistent_witness :
    (applyCheckout subPro 7 docBasic).limits
      = projectLimits (applyCheckout subPro 7 docBasic).subscriptionTier :=
  (c4_limits_consistent_after_transition subPro 7 docBasic (by decide)).1

/-- Claim C5: getTierFromPriceId tries the exact price-id table first;
on a miss it tries the substring checks against the tier names it knows
(basic then pro); when those also fail it returns the lowest tier basic
and reaches the console.warn branch - so an unrecognized price identifier
never yields anything above the lowest tier. -/
theorem c5_tier_derivation_order (p : String) :
    (∀ t, priceIdToTier p = some t → getTierFromPriceIdW p = (t, false))
    ∧ (priceIdToTier p = none → jsIncludes p "basic" = true →
        getTierFromPriceIdW p = ("basic", false))
    ∧ (priceIdToTier p = none → jsIncludes p "basic" = false →
        jsIncludes p "pro" = true → getTierFromPriceIdW p = ("pro", false))
    ∧ (priceIdToTier p = none → jsIncludes p "basic" = false →
        jsIncludes p "pro" = false → getTierFromPriceIdW p = ("basic", true)) := by
  refine ⟨?_, ?_, ?_, ?_⟩
  · intro t ht
    unfold getTierFromPriceIdW
    rw [ht]
  · intro h0 h1
    unfold getTierFromPriceIdW
    rw [h0]
    simp [h1]
  · intro h0 h1 h2
    unfold getTierFromPriceIdW
    rw [h0]
    simp [h1, h2]
  · intro h0 h1 h2
    unfold getTierFromPriceIdW
    rw [h0]
    simp [h1, h2]

/-- Witness for C5 at a price id outside the table with no tier-name
run inside it. -/
theorem c5_tier_derivation_order_witness :
    getTierFromPriceIdW "price_custom_xyz" = ("basic", true) :=
  (c5_tier_derivation_order "price_custom_xyz").2.2.2 rfl rfl rfl

/-- Claim C6: a subscription-deleted event for a resolvable user whose
document exists sets subscriptionStatus to canceled and leaves
subscriptionTier and limits exactly as they were, for every prior status
(the quantified document covers an already-canceled one). -/
theorem c6_subscription_deleted_sets_canceled (ext : Ext) (cust : String)
    (now : Nat) (s : Store) (uid : String) (d : UserDoc)
    (hres : getUserIdFromCustomerId ext s cust = some uid)
    (hget : s.get uid = some d) :
    ∃ s', handleSubscriptionDeleted ext cust now s = Except.ok s'
      ∧ s'.get uid = some (subDeletedWrite now d)
      ∧ (subDeletedWrite now d).subscriptionStatus = "canceled"
      ∧ (subDeletedWrite now d).subscriptionTier = d.subscriptionTier
      ∧ (subDeletedWrite now d).limits = d.limits := by
  obtain ⟨s', h1, h2⟩ := runWrites_ok [subDeletedWrite now] uid s d hget
  refine ⟨s', ?_, ?_, rfl, rfl, rfl⟩
  · simp only [handleSubscriptionDeleted, hres]
    exact h1
  · simpa using h2

/-- Witness for C6 at a store whose document is already canceled. -/
theorem c6_subscription_deleted_witness :
    ∃ s', handleSubscriptionDeleted ext1 "cus_1" 9 [("u1", docCanceled)]
        = Except.ok s'
      ∧ Store.get s' "u1" = some (subDeletedWrite 9 docCanceled)
      ∧ (subDeletedWrite 9 docCanceled).subscriptionStatus = "canceled"
      ∧ (subDeletedWrite 9 docCanceled).subscriptionTier
          = docCanceled.subscriptionTier
      ∧ (subDeletedWrite 9 docCanceled).limits = docCanceled.limits :=
  c6_subscription_deleted_sets_canceled ext1 "cus_1" 9 [("u1", docCanceled)]
    "u1" docCanceled (by decide) (by decide)

/-- Claim C7: an invoice-payment-failed event for a resolvable user whose
document is currently active sets subscriptionStatus to past_due and
leaves subscriptionTier unchanged. -/
theorem c7_payment_failed_sets_past_due (ext : Ext) (cust : String)
    (now : Nat) (s : Store) (uid : String) (d : UserDoc)
    (hres : getUserIdFromCustomerId ext s cust = some uid)
    (hget : s.get uid = some d)
    (_hact : d.subscriptionStatus = "active") :
    ∃ s', handlePaymentFailed ext cust now s = Except.ok s'
      ∧ s'.get uid = some (paymentFailedWrite now d)
      ∧ (paymentFailedWrite now d).subscriptionStatus = "past_due"
      ∧ (paymentFailedWrite now d).subscriptionTier = d.subscriptionTier := by
  obtain ⟨s', h1, h2⟩ := runWrites_ok [paymentFailedWrite now] uid s d hget
  refine ⟨s', ?_, ?_, rfl, rfl⟩
  · simp only [handlePaymentFailed, hres]
    exact h1
  · simpa using h2

/-- Witness for C7 at a store with an active pro document. -/
theorem c7_payment_failed_witness :
    ∃ s', handlePaymentFailed ext1 "cus_1" 9 [("u1", docActive)]
        = Except.ok s'
      ∧ Store.get s' "u1" = some (paymentFailedWrite 9 docActive)
      ∧ (paymentFailedWrite 9 docActive).subscriptionStatus = "past_due"
      ∧ (paymentFailedWrite 9 docActive).subscriptionTier
          = docActive.subscriptionTier :=
  c7_payment_failed_sets_past_due ext1 "cus_1" 9 [("u1", docActive)] "u1"
    docActive (by decide) (by decide) (by decide)

/-- Claim C8: re-applying the same subscription-updated event to a user
document absorbs into a single application - every field the transition
writes is determined by the event alone, so the second application (at
any delivery time, in particular the same one) yields the same final
document as one application at that time. -/
theorem c8_subscription_updated_idempotent (sub : SubObj)
    (now1 now2 : Nat) (d : UserDoc) :
    applySubUpdated sub now2 (applySubUpdated sub now1 d)
      = applySubUpdated sub now2 d :=
  rfl

/-- Claim C9: for a validly signed webhook call, an unknown event kind
answers 200 with the store untouched, a subscription-updated event whose
customer does not resolve answers 200 with the store untouched, and a
non-200 answer happens exactly when the dispatched handler fails, in
which case it is 500. -/
theorem c9_accepted_unless_handler_fails
    (hmac : String → String → String) (parse : String → StripeEvent)
    (ext : Ext) (rawBody sig secret : String) (now : Nat) (s : Store)
    (hsig : sig = hmac secret rawBody) :
    (∀ t, parse rawBody = StripeEvent.unknown t →
        stripeWebhook hmac parse ext rawBody sig secret now s = (200, s))
    ∧ (∀ sub, parse rawBody = StripeEvent.subscriptionUpdated sub →
        getUserIdFromCustomerId ext s sub.customer = none →
        stripeWebhook hmac parse ext rawBody sig secret now s = (200, s))
    ∧ ((stripeWebhook hmac parse ext rawBody sig secret now s).1 ≠ 200 →
        ∃ msg, dispatchEvent ext (parse rawBody) now s = Except.error msg
          ∧ stripeWebhook hmac parse ext rawBody sig secret now s
              = (500, s)) := by
  refine ⟨?_, ?_, ?_⟩
  · intro t ht
    unfold stripeWebhook
    rw [if_pos hsig, ht]
    rfl
  · intro sub hsub hres
    unfold stripeWebhook
    rw [if_pos hsig, hsub]
    simp [dispatchEvent, handleSubscriptionUpdated, hres]
  · intro hne
    unfold stripeWebhook at hne ⊢
    rw [if_pos hsig] at hne ⊢
    cases h : dispatchEvent ext (parse rawBody) now s with
    | ok s' => rw [h] at hne; simp at hne
    | error e => exact ⟨e, rfl, rfl⟩

/-- Witness for C9 at a concrete validly signed unknown event. -/
theorem c9_accepted_witness :
    stripeWebhook (fun secret b => secret ++ b)
      (fun _ => StripeEvent.unknown "evt") ext1 "body" "secbody" "sec" 0 []
      = (200, []) :=
  (c9_accepted_unless_handler_fails _ _ ext1 "body" "secbody" "sec" 0 []
    (by decide)).1 "evt" rfl

/-- Claim C10: getTierFromPriceId only ever returns basic or pro, even
though enterprise is a tier of the catalog (with its own limits bundle);
hence neither the checkout-completed nor the subscription-updated
transition can ever store the enterprise tier. -/
theorem c10_tier_never_enterprise :
    (∀ p, getTierFromPriceId p = "basic" ∨ getTierFromPriceId p = "pro")
    ∧ "enterprise" ∈ SUBSCRIPTION_TIERS
    ∧ (tierConfigLimits "enterprise").isSome = true
    ∧ ∀ sub now d,
        (applyCheckout sub now d).subscriptionTier ≠ "enterprise"
        ∧ (applySubUpdated sub now d).subscriptionTier ≠ "enterprise" := by
  have hbp : ∀ p, getTierFromPriceId p = "basic"
      ∨ getTierFromPriceId p = "pro" := by
    intro p
    unfold getTierFromPriceId getTierFromPriceIdW priceIdToTier
    by_cases h1 : p = "price_basic_monthly"
    · simp [h1]
    · by_cases h2 : p = "price_pro_monthly"
      · simp [h1, h2]
      · by_cases h3 : jsIncludes p "basic"
        · simp [h1, h2, h3]
        · by_cases h4 : jsIncludes p "pro" <;> simp [h1, h2, h3, h4]
  refine ⟨hbp, by decide, by decide, ?_⟩
  intro sub now d
  have ht : (applyCheckout sub now d).subscriptionTier
      = getTierFromPriceId sub.priceId := rfl
  have ht2 : (applySubUpdated sub now d).subscriptionTier
      = getTierFromPriceId sub.priceId := rfl
  constructor
  · rcases hbp sub.priceId with h | h <;> rw [ht, h] <;> decide
  · rcases hbp sub.priceId with h | h <;> rw [ht2, h] <;> decide

/-- Witness for C10 at a concrete checkout transition. -/
theorem c10_tier_never_enterprise_witness :
    (applyCheckout subPro 7 docBasic).subscriptionTier ≠ "enterprise" :=
  (c10_tier_never_enterprise.2.2.2 subPro 7 docBasic).1

end ExtTracker
